import Mathlib

/-!
Verification of the countgpt core: the model-name-to-tokenizer resolver
(`countgpt/models.py`) and the token-span visualizer (`countgpt/visualize.py`),
shallowly embedded in Lean 4.

Modelling conventions:
- Python `str` values used as lookup keys are Lean `String`s; text processed
  character by character (the visualizer) is `List Char`, matching Python's
  code-point indexing.
- Python `dict` literals (no duplicate keys, insertion order preserved) are
  association lists `List (String × String)`; `dict` lookup is `List.lookup`.
- Raw token bytes are `List Nat` (each entry a byte value).
- Side-channel diagnostics (`print(..., file=sys.stderr)`) are modelled as an
  extra `List String` result: the warnings emitted, in order.
- Primary output (`print(...)` to the output stream) is modelled as the list of
  payload strings passed to `print`, in order.
-/

namespace CountGPT

/-- Python `s.startswith(p)`: `p` is a code-point prefix of `s`. -/
def strStartsWith (s p : String) : Bool :=
  p.data.isPrefixOf s.data

/-- `MODEL_PREFIX_TO_ENCODING` from `countgpt/models.py` (lines 9–24), in the
source's insertion order. -/
def MODEL_PREFIX_TO_ENCODING : List (String × String) :=
  [ ("o1-", "o200k_base"),
    ("o3-", "o200k_base"),
    ("chatgpt-4o-", "o200k_base"),
    ("gpt-4o-", "o200k_base"),
    ("gpt-4-", "cl100k_base"),
    ("gpt-3.5-turbo-", "cl100k_base"),
    ("gpt-35-turbo-", "cl100k_base"),
    ("ft:gpt-4o", "o200k_base"),
    ("ft:gpt-4", "cl100k_base"),
    ("ft:gpt-3.5-turbo", "cl100k_base"),
    ("ft:davinci-002", "cl100k_base"),
    ("ft:babbage-002", "cl100k_base") ]

/-- `MODEL_TO_ENCODING` from `countgpt/models.py` (lines 26–104), in the
source's insertion order. -/
def MODEL_TO_ENCODING : List (String × String) :=
  [ ("claude-3-opus", "o200k_base"),
    ("claude-3-sonnet", "o200k_base"),
    ("claude-3-haiku", "o200k_base"),
    ("claude-3", "o200k_base"),
    ("claude-2", "o200k_base"),
    ("claude-2.0", "o200k_base"),
    ("claude-2.1", "o200k_base"),
    ("claude-instant", "o200k_base"),
    ("claude", "o200k_base"),
    ("o1", "o200k_base"),
    ("o3", "o200k_base"),
    ("gpt-4o", "o200k_base"),
    ("gpt-4-turbo", "cl100k_base"),
    ("gpt-4", "cl100k_base"),
    ("gpt-3.5-turbo", "cl100k_base"),
    ("gpt-3.5", "cl100k_base"),
    ("chatgpt", "cl100k_base"),
    ("gpt-35-turbo", "cl100k_base"),
    ("davinci-002", "cl100k_base"),
    ("babbage-002", "cl100k_base"),
    ("text-embedding-ada-002", "cl100k_base"),
    ("text-embedding-3-small", "cl100k_base"),
    ("text-embedding-3-large", "cl100k_base"),
    ("4o", "o200k_base"),
    ("4", "cl100k_base"),
    ("3.5", "cl100k_base"),
    ("opus", "o200k_base"),
    ("sonnet", "o200k_base"),
    ("haiku", "o200k_base"),
    ("text-davinci-003", "p50k_base"),
    ("text-davinci-002", "p50k_base"),
    ("text-davinci-001", "r50k_base"),
    ("text-curie-001", "r50k_base"),
    ("text-babbage-001", "r50k_base"),
    ("text-ada-001", "r50k_base"),
    ("davinci", "r50k_base"),
    ("curie", "r50k_base"),
    ("babbage", "r50k_base"),
    ("ada", "r50k_base"),
    ("code-davinci-002", "p50k_base"),
    ("code-davinci-001", "p50k_base"),
    ("code-cushman-002", "p50k_base"),
    ("code-cushman-001", "p50k_base"),
    ("davinci-codex", "p50k_base"),
    ("cushman-codex", "p50k_base"),
    ("text-davinci-edit-001", "p50k_edit"),
    ("code-davinci-edit-001", "p50k_edit"),
    ("text-similarity-davinci-001", "r50k_base"),
    ("text-similarity-curie-001", "r50k_base"),
    ("text-similarity-babbage-001", "r50k_base"),
    ("text-similarity-ada-001", "r50k_base"),
    ("text-search-davinci-doc-001", "r50k_base"),
    ("text-search-curie-doc-001", "r50k_base"),
    ("text-search-babbage-doc-001", "r50k_base"),
    ("text-search-ada-doc-001", "r50k_base"),
    ("code-search-babbage-code-001", "r50k_base"),
    ("code-search-ada-code-001", "r50k_base"),
    ("gpt2", "gpt2"),
    ("gpt-2", "gpt2") ]

/-- Modelled from the spec: `get_available_models` wraps the external tokenizer
service's `tiktoken.list_encoding_names()` (`countgpt/models.py` lines 107–109),
the fixed set of known tokenizer identifiers — the encoding schemes that the
resolution tables map to. -/
def get_available_models : List String :=
  ["gpt2", "r50k_base", "p50k_base", "p50k_edit", "cl100k_base", "o200k_base"]

/-- The warning message emitted by the resolver's default-fallback branch
(`countgpt/models.py` line 146). -/
def unknownModelWarning (model_name : String) : String :=
  "Warning: Unknown model '" ++ model_name ++ "'. Defaulting to cl100k_base encoding."

/-- First prefix-table entry (in insertion order) whose key is a prefix of
`model_name` — the loop at `countgpt/models.py` lines 134–136. -/
def firstPrefixMatch (model_name : String) : Option String :=
  (MODEL_PREFIX_TO_ENCODING.find? (fun pe => strStartsWith model_name pe.1)).map (·.2)

/-- `get_encoding_for_model` from `countgpt/models.py` (lines 117–148).
Returns the resolved tokenizer identifier together with the list of warnings
emitted on stderr (the code emits at most one). The final `if` mirrors the
redundant re-check on line 145 literally. -/
def get_encoding_for_model (model_name : String) : String × List String :=
  match MODEL_TO_ENCODING.lookup model_name with
  | some enc => (enc, [])
  | none =>
    match firstPrefixMatch model_name with
    | some enc => (enc, [])
    | none =>
      if model_name ∈ get_available_models then
        (model_name, [])
      else
        if ¬(MODEL_PREFIX_TO_ENCODING.any (fun pe => strStartsWith model_name pe.1))
            ∧ model_name ∉ get_available_models then
          ("cl100k_base", [unknownModelWarning model_name])
        else
          ("cl100k_base", [])

end CountGPT

/-- C1: every key of the exact table resolves to exactly the value the exact
table maps it to (exact match takes precedence over the prefix table). -/
theorem C1_exact_table_precedence :
    ∀ p ∈ CountGPT.MODEL_TO_ENCODING,
      (CountGPT.get_encoding_for_model p.1).1 = p.2 := by
  decide

/-- C1 witness: the key "gpt-4-turbo" (which also matches the prefix "gpt-4-")
resolves via the exact table. -/
theorem C1_exact_table_precedence_witness :
    (CountGPT.get_encoding_for_model "gpt-4-turbo").1 = "cl100k_base" :=
  C1_exact_table_precedence ("gpt-4-turbo", "cl100k_base") (by decide)

/-- C2: a string with no exact-table entry that starts with at least one
prefix-table key resolves to the value of the first matching prefix in the
table's insertion order; in particular "gpt-4-0314" resolves to the value
mapped to prefix "gpt-4-". -/
theorem C2_prefix_first_match :
    (∀ s v, CountGPT.MODEL_TO_ENCODING.lookup s = none →
        CountGPT.firstPrefixMatch s = some v →
        (CountGPT.get_encoding_for_model s).1 = v)
    ∧ (CountGPT.get_encoding_for_model "gpt-4-0314").1 = "cl100k_base"
    ∧ CountGPT.MODEL_PREFIX_TO_ENCODING.lookup "gpt-4-" = some "cl100k_base" := by
  refine ⟨?_, by decide, by decide⟩
  intro s v h1 h2
  simp [CountGPT.get_encoding_for_model, h1, h2]

/-- C2 witness: "gpt-4-0314" is absent from the exact table, its first matching
prefix is "gpt-4-", and it resolves to that prefix's value. -/
theorem C2_prefix_first_match_witness :
    (CountGPT.get_encoding_for_model "gpt-4-0314").1 = "cl100k_base" :=
  C2_prefix_first_match.1 "gpt-4-0314" "cl100k_base" (by decide) (by decide)

/-- C3: every known tokenizer identifier resolves to itself with no warning
(including "gpt2", which the exact table maps to itself). -/
theorem C3_identity_fallback :
    ∀ t ∈ CountGPT.get_available_models,
      CountGPT.get_encoding_for_model t = (t, []) := by
  decide

/-- C3 witness: "cl100k_base" resolves to itself with no warning. -/
theorem C3_identity_fallback_witness :
    CountGPT.get_encoding_for_model "cl100k_base" = ("cl100k_base", []) :=
  C3_identity_fallback "cl100k_base" (by decide)

/-- C4: a string with no exact-table entry, no matching prefix and that is not
itself a known tokenizer identifier resolves (without failing) to the default
"cl100k_base", emitting exactly one warning that names the unknown
identifier, on the warning side channel. -/
theorem C4_default_fallback :
    ∀ s, CountGPT.MODEL_TO_ENCODING.lookup s = none →
      CountGPT.firstPrefixMatch s = none →
      s ∉ CountGPT.get_available_models →
      CountGPT.get_encoding_for_model s =
        ("cl100k_base", [CountGPT.unknownModelWarning s]) := by
  intro s h1 h2 h3
  have hf : CountGPT.MODEL_PREFIX_TO_ENCODING.find?
      (fun pe => CountGPT.strStartsWith s pe.1) = none := by
    simpa [CountGPT.firstPrefixMatch, Option.map_eq_none'] using h2
  have hany : CountGPT.MODEL_PREFIX_TO_ENCODING.any
      (fun pe => CountGPT.strStartsWith s pe.1) = false := by
    rw [List.any_eq_false]
    intro pe hpe
    simpa using List.find?_eq_none.mp hf pe hpe
  simp [CountGPT.get_encoding_for_model, h1, h2, h3, hany]

/-- C4 witness: "totally-unknown-model" resolves to the default with exactly
one warning mentioning it. -/
theorem C4_default_fallback_witness :
    CountGPT.get_encoding_for_model "totally-unknown-model" =
      ("cl100k_base", [CountGPT.unknownModelWarning "totally-unknown-model"]) :=
  C4_default_fallback "totally-unknown-model" (by decide) (by decide) (by decide)

namespace CountGPT

/-- The Unicode replacement character U+FFFD used by lossy decoding. -/
def replacementChar : Char := Char.ofNat 0xFFFD

/-- A UTF-8 continuation byte. -/
def isCont (b : Nat) : Bool := 0x80 ≤ b && b ≤ 0xBF

/-- Recursion kernel for lossy UTF-8 decoding. Each step consumes at least one
byte and one unit of fuel, so with `fuel ≥` the list's length the fuel never
runs out and the `0, _ :: _` case is unreachable. -/
def utf8DecodeAux : Nat → List Nat → List Char
  | _, [] => []
  | 0, _ :: _ => []
  | fuel + 1, b :: rest =>
    if b < 0x80 then Char.ofNat b :: utf8DecodeAux fuel rest
    else if 0xC2 ≤ b && b ≤ 0xDF then
      match rest with
      | [] => [replacementChar]
      | b1 :: rest1 =>
        if isCont b1 then
          Char.ofNat ((b - 0xC0) * 0x40 + (b1 - 0x80)) :: utf8DecodeAux fuel rest1
        else replacementChar :: utf8DecodeAux fuel rest
    else if 0xE0 ≤ b && b ≤ 0xEF then
      match rest with
      | [] => [replacementChar]
      | b1 :: rest1 =>
        if (if b = 0xE0 then 0xA0 else 0x80) ≤ b1 && b1 ≤ (if b = 0xED then 0x9F else 0xBF) then
          match rest1 with
          | [] => [replacementChar]
          | b2 :: rest2 =>
            if isCont b2 then
              Char.ofNat ((b - 0xE0) * 0x1000 + (b1 - 0x80) * 0x40 + (b2 - 0x80)) ::
                utf8DecodeAux fuel rest2
            else replacementChar :: utf8DecodeAux fuel rest1
        else replacementChar :: utf8DecodeAux fuel rest
    else if 0xF0 ≤ b && b ≤ 0xF4 then
      match rest with
      | [] => [replacementChar]
      | b1 :: rest1 =>
        if (if b = 0xF0 then 0x90 else 0x80) ≤ b1 && b1 ≤ (if b = 0xF4 then 0x8F else 0xBF) then
          match rest1 with
          | [] => [replacementChar]
          | b2 :: rest2 =>
            if isCont b2 then
              match rest2 with
              | [] => [replacementChar]
              | b3 :: rest3 =>
                if isCont b3 then
                  Char.ofNat ((b - 0xF0) * 0x40000 + (b1 - 0x80) * 0x1000 +
                      (b2 - 0x80) * 0x40 + (b3 - 0x80)) :: utf8DecodeAux fuel rest3
                else replacementChar :: utf8DecodeAux fuel rest2
            else replacementChar :: utf8DecodeAux fuel rest1
        else replacementChar :: utf8DecodeAux fuel rest
    else replacementChar :: utf8DecodeAux fuel rest

/-- Python `bytes.decode('utf-8', errors='replace')` (`countgpt/visualize.py`
line 35): total lossy UTF-8 decoding; every maximal invalid subpart is replaced
by U+FFFD. -/
def utf8DecodeReplace (l : List Nat) : List Char :=
  utf8DecodeAux l.length l

/-- Python `text.index(pat, offset)` (`countgpt/visualize.py` line 38) as an
option: the least code-point index `i` with `offset ≤ i` at which `pat` occurs
in `text`, if any. -/
def strIndexFrom (text pat : List Char) (offset : Nat) : Option Nat :=
  (List.range (text.length + 1)).find?
    (fun i => decide (offset ≤ i) && pat.isPrefixOf (text.drop i))

/-- `max_errors` from `countgpt/visualize.py` line 31. -/
def maxPositioningErrors : Nat := 5

/-- The warning printed at `countgpt/visualize.py` lines 51–52. -/
def positioningWarning : String :=
  "Warning: Multiple token positioning errors encountered. Visualization may be inaccurate."

/-- The loop of `get_token_positions` (`countgpt/visualize.py` lines 33–57),
with the running `offset` and `error_count` as parameters. Returns the
positions list and the warnings printed to stderr. The
`except UnicodeDecodeError` handler (lines 53–57) is dead code — decoding with
`errors='replace'` is total and never raises — so it has no counterpart here. -/
def getTokenPositionsAux (text : List Char) :
    List (List Nat) → Nat → Nat → List (Nat × Nat × List Char) × List String
  | [], _, _ => ([], [])
  | token :: rest, offset, errorCount =>
    let tokenStr := utf8DecodeReplace token
    match strIndexFrom text tokenStr offset with
    | some start =>
      let r := getTokenPositionsAux text rest (start + tokenStr.length) errorCount
      ((start, start + tokenStr.length, tokenStr) :: r.1, r.2)
    | none =>
      let r := getTokenPositionsAux text rest (offset + tokenStr.length) (errorCount + 1)
      ((offset, offset + tokenStr.length, tokenStr) :: r.1,
        (if errorCount + 1 = maxPositioningErrors then [positioningWarning] else []) ++ r.2)

/-- `get_token_positions` from `countgpt/visualize.py` (lines 14–59): spans
`(start, end, decoded token)` for each token, plus the warnings emitted. -/
def get_token_positions (text : List Char) (tokens : List (List Nat)) :
    List (Nat × Nat × List Char) × List String :=
  getTokenPositionsAux text tokens 0 0

/-- `RESET` from `countgpt/visualize.py` line 11. -/
def RESET : String := "\x1b[0m"

/-- `BG_COLORS` from `countgpt/visualize.py` lines 7–10: the fixed ordered
palette of ANSI background colors. -/
def BG_COLORS : List String :=
  [153, 184, 214, 209, 183, 157, 156, 147, 146, 218, 222, 229, 193, 157, 122].map
    (fun color => "\x1b[48;5;" ++ toString color ++ "m")

/-- The colored-text loop of `visualize_tokens` (`countgpt/visualize.py` lines
79–94), with the token index `i` and `last_end` as parameters; the base case
appends the trailing text after the last span (lines 93–94). -/
def coloredTextAux (text : List Char) :
    List (Nat × Nat × List Char) → Nat → Nat → List Char
  | [], _, lastEnd => if lastEnd < text.length then text.drop lastEnd else []
  | (start, stop, tokenStr) :: rest, i, lastEnd =>
    (if lastEnd < start then (text.drop lastEnd).take (start - lastEnd) else []) ++
    (BG_COLORS.getD (i % BG_COLORS.length) "").data ++ tokenStr ++ RESET.data ++
    coloredTextAux text rest (i + 1) stop

/-- `visualize_tokens` from `countgpt/visualize.py` (lines 62–101): the pair of
(primary output print payloads, stderr warnings). -/
def visualize_tokens (text : List Char) (tokens : List (List Nat)) :
    List String × List String :=
  if tokens.isEmpty then
    ([String.mk text], [])
  else
    let r := get_token_positions text tokens
    (["Tokens: " ++ toString tokens.length ++ "        Characters: " ++
        toString text.length ++ "\n",
      String.mk (coloredTextAux text r.1 0 0),
      "\n"], r.2)

/-- The rendered output with the color markers removed: the concatenation, in
order, of the gap before each span, the span's substring, and the trailing
text after the last span — `coloredTextAux` with the color and reset markers
dropped. -/
def plainRender (text : List Char) : List (Nat × Nat × List Char) → Nat → List Char
  | [], lastEnd => if lastEnd < text.length then text.drop lastEnd else []
  | (start, stop, tokenStr) :: rest, lastEnd =>
    (if lastEnd < start then (text.drop lastEnd).take (start - lastEnd) else []) ++
    tokenStr ++ plainRender text rest stop

/-- Whether every decoded token occurs in `text` at or after the running
cursor, following the cursor updates of `getTokenPositionsAux`'s found branch
(no positioning errors). -/
def allTokensFound (text : List Char) : List (List Nat) → Nat → Bool
  | [], _ => true
  | token :: rest, offset =>
    let tokenStr := utf8DecodeReplace token
    match strIndexFrom text tokenStr offset with
    | some start => allTokensFound text rest (start + tokenStr.length)
    | none => false

/-- The number of positioning errors (`error_count` increments) incurred by
`getTokenPositionsAux` on the given tokens from the given cursor. -/
def numPositioningErrors (text : List Char) : List (List Nat) → Nat → Nat
  | [], _ => 0
  | token :: rest, offset =>
    let tokenStr := utf8DecodeReplace token
    match strIndexFrom text tokenStr offset with
    | some start => numPositioningErrors text rest (start + tokenStr.length)
    | none => numPositioningErrors text rest (offset + tokenStr.length) + 1

end CountGPT

namespace CountGPT

theorem strIndexFrom_some {text pat : List Char} {offset s : Nat}
    (h : strIndexFrom text pat offset = some s) :
    offset ≤ s ∧ s + pat.length ≤ text.length ∧
      text.drop s = pat ++ text.drop (s + pat.length) := by
  unfold strIndexFrom at h
  have hp := List.find?_some h
  have hm := List.mem_of_find?_eq_some h
  rw [List.mem_range] at hm
  rw [Bool.and_eq_true, decide_eq_true_iff] at hp
  obtain ⟨h1, h2⟩ := hp
  rw [List.isPrefixOf_iff_prefix] at h2
  obtain ⟨t, ht⟩ := h2
  have hlen : pat.length + t.length = text.length - s := by
    have := congrArg List.length ht
    simpa using this
  have hdrop : text.drop (s + pat.length) = t := by
    rw [← List.drop_drop, ← ht, List.drop_left]
  exact ⟨h1, by omega, by rw [hdrop, ht]⟩

theorem take_sub_append_drop (l : List Char) (off s : Nat) (h : off ≤ s) :
    (l.drop off).take (s - off) ++ l.drop s = l.drop off := by
  have h2 : l.drop s = (l.drop off).drop (s - off) := by
    rw [List.drop_drop]
    congr 1
    omega
  rw [h2, List.take_append_drop]

theorem getTokenPositionsAux_spans (text : List Char) (tokens : List (List Nat)) :
    ∀ (off c : Nat),
      (getTokenPositionsAux text tokens off c).1.length = tokens.length ∧
      (getTokenPositionsAux text tokens off c).1.map (fun sp => sp.2.2) =
        tokens.map utf8DecodeReplace ∧
      (∀ sp ∈ (getTokenPositionsAux text tokens off c).1,
        off ≤ sp.1 ∧ sp.2.1 = sp.1 + sp.2.2.length) ∧
      List.Chain' (fun a b => a.2.1 ≤ b.1) (getTokenPositionsAux text tokens off c).1 := by
  induction tokens with
  | nil =>
    intro off c
    simp [getTokenPositionsAux]
  | cons token rest ih =>
    intro off c
    cases hfind : strIndexFrom text (utf8DecodeReplace token) off with
    | some s =>
      obtain ⟨hoff, hbound, hdrop⟩ := strIndexFrom_some hfind
      obtain ⟨ih1, ih2, ih3, ih4⟩ := ih (s + (utf8DecodeReplace token).length) c
      simp only [getTokenPositionsAux, hfind]
      refine ⟨by simpa using ih1, by simpa using ih2, ?_, ?_⟩
      · intro sp hsp
        rcases List.mem_cons.mp hsp with hh | htail
        · subst hh
          exact ⟨hoff, rfl⟩
        · have := ih3 sp htail
          exact ⟨by omega, this.2⟩
      · refine List.chain'_cons'.mpr ⟨?_, ih4⟩
        intro b hb
        have hbmem : b ∈ (getTokenPositionsAux text rest
            (s + (utf8DecodeReplace token).length) c).1 := List.mem_of_mem_head? hb
        exact (ih3 b hbmem).1
    | none =>
      obtain ⟨ih1, ih2, ih3, ih4⟩ := ih (off + (utf8DecodeReplace token).length) (c + 1)
      simp only [getTokenPositionsAux, hfind]
      refine ⟨by simpa using ih1, by simpa using ih2, ?_, ?_⟩
      · intro sp hsp
        rcases List.mem_cons.mp hsp with hh | htail
        · subst hh
          exact ⟨Nat.le_refl _, rfl⟩
        · have := ih3 sp htail
          exact ⟨by omega, this.2⟩
      · refine List.chain'_cons'.mpr ⟨?_, ih4⟩
        intro b hb
        have hbmem : b ∈ (getTokenPositionsAux text rest
            (off + (utf8DecodeReplace token).length) (c + 1)).1 := List.mem_of_mem_head? hb
        exact (ih3 b hbmem).1

end CountGPT

/-- C8: with an empty token list, `get_token_positions` returns no spans and
`visualize_tokens` outputs the original text unchanged as its only print
payload, with no header and no warnings. -/
theorem C8_empty_tokens (text : List Char) :
    CountGPT.get_token_positions text [] = ([], []) ∧
    CountGPT.visualize_tokens text [] = ([String.mk text], []) :=
  ⟨rfl, rfl⟩

/-- C10: `get_token_positions` yields exactly one span per token in token
order (the i-th span's string is the i-th token's lossy decoding), every span
satisfies `end = start + length`, and spans never overlap or move backwards:
each start is at least the previous end (starts are ≥ 0 by type). -/
theorem C10_span_invariants (text : List Char) (tokens : List (List Nat)) :
    (CountGPT.get_token_positions text tokens).1.length = tokens.length ∧
    (CountGPT.get_token_positions text tokens).1.map (fun sp => sp.2.2) =
      tokens.map CountGPT.utf8DecodeReplace ∧
    (∀ sp ∈ (CountGPT.get_token_positions text tokens).1,
      sp.2.1 = sp.1 + sp.2.2.length) ∧
    List.Chain' (fun a b => a.2.1 ≤ b.1)
      (CountGPT.get_token_positions text tokens).1 := by
  obtain ⟨h1, h2, h3, h4⟩ := CountGPT.getTokenPositionsAux_spans text tokens 0 0
  exact ⟨h1, h2, fun sp hsp => (h3 sp hsp).2, h4⟩

/-- C10 witness: the first span of tokenizing "ab" as ["a", "b"] satisfies
`end = start + length`. -/
theorem C10_span_invariants_witness :
    ((0, 1, ['a']) : Nat × Nat × List Char).2.1 =
      ((0, 1, ['a']) : Nat × Nat × List Char).1 +
        ((0, 1, ['a']) : Nat × Nat × List Char).2.2.length :=
  (C10_span_invariants "ab".data [[97], [98]]).2.2.1 (0, 1, ['a']) (by decide)

/-- C6: for text "Hello, world!" and decoded tokens ["Hello", ",", " world",
"!"], `get_token_positions` yields exactly the spans (0,5), (5,6), (6,12),
(12,13), and `visualize_tokens` outputs the header
"Tokens: 4        Characters: 13" followed by the text with token i wrapped in
palette color i mod 15 and a trailing reset; the palette is fixed with 15
entries, at least 10 of them distinct. -/
theorem C6_hello_world_scenario :
    CountGPT.get_token_positions "Hello, world!".data
        [[72, 101, 108, 108, 111], [44], [32, 119, 111, 114, 108, 100], [33]] =
      ([(0, 5, "Hello".data), (5, 6, ",".data),
        (6, 12, " world".data), (12, 13, "!".data)], []) ∧
    CountGPT.visualize_tokens "Hello, world!".data
        [[72, 101, 108, 108, 111], [44], [32, 119, 111, 114, 108, 100], [33]] =
      (["Tokens: 4        Characters: 13\n",
        "\x1b[48;5;153mHello\x1b[0m\x1b[48;5;184m,\x1b[0m\x1b[48;5;214m world\x1b[0m\x1b[48;5;209m!\x1b[0m",
        "\n"], []) ∧
    CountGPT.BG_COLORS.length = 15 ∧
    10 ≤ CountGPT.BG_COLORS.dedup.length ∧
    CountGPT.BG_COLORS.take 4 =
      ["\x1b[48;5;153m", "\x1b[48;5;184m", "\x1b[48;5;214m", "\x1b[48;5;209m"] := by
  refine ⟨by decide, by decide, by decide, by decide, by decide⟩

namespace CountGPT

theorem plainRender_round_trip_aux (text : List Char) (tokens : List (List Nat)) :
    ∀ (off c : Nat), allTokensFound text tokens off = true →
      plainRender text (getTokenPositionsAux text tokens off c).1 off = text.drop off := by
  induction tokens with
  | nil =>
    intro off c _
    simp only [getTokenPositionsAux, plainRender]
    split
    · rfl
    · exact (List.drop_eq_nil_of_le (by omega)).symm
  | cons token rest ih =>
    intro off c hfound
    simp only [allTokensFound] at hfound
    cases hfind : strIndexFrom text (utf8DecodeReplace token) off with
    | none =>
      rw [hfind] at hfound
      exact absurd hfound (by simp)
    | some s =>
      rw [hfind] at hfound
      obtain ⟨hoff, hbound, hdrop⟩ := strIndexFrom_some hfind
      simp only [getTokenPositionsAux, hfind, plainRender]
      rw [ih _ c hfound]
      have hgap : (if off < s then (text.drop off).take (s - off) else []) =
          (text.drop off).take (s - off) := by
        split
        · rfl
        · rw [show s - off = 0 by omega]
          rfl
      rw [hgap, List.append_assoc, ← hdrop]
      exact take_sub_append_drop text off s hoff

end CountGPT

/-- C5: round-trip — whenever every decoded token occurs in the text at or
after the running cursor (no positioning errors), the rendered output with the
color markers removed (the concatenation of the gaps, the span substrings and
the trailing text) reproduces the original text exactly. -/
theorem C5_round_trip (text : List Char) (tokens : List (List Nat))
    (h : CountGPT.allTokensFound text tokens 0 = true) :
    CountGPT.plainRender text (CountGPT.get_token_positions text tokens).1 0 = text := by
  have := CountGPT.plainRender_round_trip_aux text tokens 0 0 h
  simpa [CountGPT.get_token_positions] using this

/-- C5 witness: for text "ab" and tokens ["a", "b"], every token is found and
the stripped rendering reproduces "ab". -/
theorem C5_round_trip_witness :
    CountGPT.allTokensFound "ab".data [[97], [98]] 0 = true ∧
    CountGPT.plainRender "ab".data
      (CountGPT.get_token_positions "ab".data [[97], [98]]).1 0 = "ab".data :=
  ⟨by decide, C5_round_trip "ab".data [[97], [98]] (by decide)⟩

namespace CountGPT

theorem getTokenPositionsAux_warnings (text : List Char) (tokens : List (List Nat)) :
    ∀ (off c : Nat),
      (getTokenPositionsAux text tokens off c).2 =
        if c < maxPositioningErrors ∧
            maxPositioningErrors ≤ c + numPositioningErrors text tokens off then
          [positioningWarning]
        else [] := by
  induction tokens with
  | nil =>
    intro off c
    simp only [getTokenPositionsAux, numPositioningErrors, maxPositioningErrors]
    rw [if_neg (by omega)]
  | cons token rest ih =>
    intro off c
    cases hfind : strIndexFrom text (utf8DecodeReplace token) off with
    | some s =>
      simp only [getTokenPositionsAux, numPositioningErrors, hfind]
      exact ih _ c
    | none =>
      simp only [getTokenPositionsAux, numPositioningErrors, hfind]
      rw [ih _ (c + 1)]
      simp only [maxPositioningErrors]
      split_ifs <;> simp_all <;> omega

end CountGPT

/-- C7: (corrected) a decoded token not found at or after the cursor is
emitted as the best-effort span `(offset, offset + length, decoded)` anchored
at the cursor, which then advances by that length; and within one call a
single aggregated diagnostic warning is emitted exactly when the count of
positioning errors reaches the fixed threshold of 5 (i.e. at the 5th error),
with no further warnings for that call. -/
theorem C7_positioning_error_recovery :
    (∀ (text : List Char) (token : List Nat) (rest : List (List Nat)) (off c : Nat),
      CountGPT.strIndexFrom text (CountGPT.utf8DecodeReplace token) off = none →
      CountGPT.getTokenPositionsAux text (token :: rest) off c =
        ((off, off + (CountGPT.utf8DecodeReplace token).length,
            CountGPT.utf8DecodeReplace token) ::
          (CountGPT.getTokenPositionsAux text rest
            (off + (CountGPT.utf8DecodeReplace token).length) (c + 1)).1,
         (if c + 1 = CountGPT.maxPositioningErrors
            then [CountGPT.positioningWarning] else []) ++
          (CountGPT.getTokenPositionsAux text rest
            (off + (CountGPT.utf8DecodeReplace token).length) (c + 1)).2))
    ∧ (∀ (text : List Char) (tokens : List (List Nat)),
        (CountGPT.get_token_positions text tokens).2 =
          if CountGPT.maxPositioningErrors ≤
              CountGPT.numPositioningErrors text tokens 0 then
            [CountGPT.positioningWarning]
          else []) := by
  constructor
  · intro text token rest off c hfind
    simp only [CountGPT.getTokenPositionsAux, hfind]
  · intro text tokens
    have h := CountGPT.getTokenPositionsAux_warnings text tokens 0 0
    simp only [CountGPT.get_token_positions]
    rw [h]
    simp only [CountGPT.maxPositioningErrors]
    split_ifs <;> first | rfl | omega

/-- C7 witness: on empty text the token "b" is not found, so its span is
anchored at the cursor and the error count increments. -/
theorem C7_positioning_error_recovery_witness :
    CountGPT.strIndexFrom [] (CountGPT.utf8DecodeReplace [98]) 0 = none ∧
    CountGPT.getTokenPositionsAux [] [[98]] 0 0 =
      ((0, 0 + (CountGPT.utf8DecodeReplace [98]).length,
          CountGPT.utf8DecodeReplace [98]) ::
        (CountGPT.getTokenPositionsAux []
          ([] : List (List Nat)) (0 + (CountGPT.utf8DecodeReplace [98]).length) (0 + 1)).1,
       (if 0 + 1 = CountGPT.maxPositioningErrors
          then [CountGPT.positioningWarning] else []) ++
        (CountGPT.getTokenPositionsAux []
          ([] : List (List Nat)) (0 + (CountGPT.utf8DecodeReplace [98]).length) (0 + 1)).2) :=
  ⟨by decide, C7_positioning_error_recovery.1 [] [98] [] 0 0 (by decide)⟩

/-- C7 counterexample: a call with exactly 5 positioning errors — a count that
does not exceed 5 — still emits the aggregated warning, so the warning is not
emitted "only when the count exceeds 5". -/
theorem C7_threshold_counterexample :
    CountGPT.numPositioningErrors [] (List.replicate 5 [97]) 0 = 5 ∧
    ¬ (5 > 5) ∧
    (CountGPT.get_token_positions [] (List.replicate 5 [97])).2 =
      [CountGPT.positioningWarning] :=
  ⟨by decide, by decide, by decide⟩

/-- C9: (corrected) a token whose raw bytes are not valid UTF-8 is recovered
locally — the invalid byte sequences are replaced by the placeholder U+FFFD and
processing of the remaining tokens continues (one span per token, the
visualization never aborts) — but no warning is emitted for the decode
failure: the only warning the function can ever emit is the aggregated
positioning warning. -/
theorem C9_lossy_decode_recovery :
    ∀ (text : List Char) (tokens : List (List Nat)),
      CountGPT.utf8DecodeReplace [255] = [CountGPT.replacementChar] ∧
      (CountGPT.get_token_positions text tokens).1.length = tokens.length ∧
      ∀ w ∈ (CountGPT.get_token_positions text tokens).2,
        w = CountGPT.positioningWarning := by
  intro text tokens
  refine ⟨by decide, (CountGPT.getTokenPositionsAux_spans text tokens 0 0).1, ?_⟩
  intro w hw
  have h := CountGPT.getTokenPositionsAux_warnings text tokens 0 0
  simp only [CountGPT.get_token_positions] at hw
  rw [h] at hw
  split at hw
  · simpa using hw
  · exact absurd hw (by simp)

/-- C9 witness: a run with seven positioning errors emits only the positioning
warning, and each token still yields a span. -/
theorem C9_lossy_decode_recovery_witness :
    CountGPT.utf8DecodeReplace [255] = [CountGPT.replacementChar] ∧
    (CountGPT.get_token_positions [] (List.replicate 7 [97])).1.length =
      (List.replicate 7 ([97] : List Nat)).length ∧
    CountGPT.positioningWarning = CountGPT.positioningWarning :=
  ⟨(C9_lossy_decode_recovery [] (List.replicate 7 [97])).1,
   (C9_lossy_decode_recovery [] (List.replicate 7 [97])).2.1,
   (C9_lossy_decode_recovery [] (List.replicate 7 [97])).2.2
     CountGPT.positioningWarning (by decide)⟩

/-- C9 counterexample: the token [255] is not valid UTF-8; its bytes are
replaced by the placeholder and a span is produced, yet the warning list is
empty — no warning is emitted for the decode failure, contrary to the claim. -/
theorem C9_no_decode_warning_counterexample :
    CountGPT.utf8DecodeReplace [255] = [CountGPT.replacementChar] ∧
    CountGPT.get_token_positions [CountGPT.replacementChar] [[255]] =
      ([(0, 1, [CountGPT.replacementChar])], []) :=
  ⟨by decide, by decide⟩
